import Mathlib

/-!
Verification development for the genai-incident-management backend.
The Python source is shallowly embedded: pure string manipulation is
translated to Lean functions over `String` and `List Char`, the
session/incident engine becomes an explicit state-transition function whose
external collaborators (LLM, vector store, document store) are supplied as
oracle inputs, and the document store is a list of records.
-/

namespace GenaiIncident

/- Modelling of the Python string primitives used by the source
(ASCII-level behaviour, which is all the source relies on). -/

/-- Characters matched by Python `str.strip()` / `str.split()` / the regex class backslash-s. -/
def isPySpace (c : Char) : Bool :=
  c == ' ' || c == '\t' || c == '\n' || c == '\r' || c == '\x0b' || c == '\x0c'

/-- Python `str.strip()`. -/
def pyStrip (s : String) : String :=
  String.mk (((s.data.dropWhile isPySpace).reverse.dropWhile isPySpace).reverse)

/-- Helper for whitespace splitting: `cur` is the current word accumulated in reverse. -/
def splitWsAux : List Char → List Char → List String
  | [], cur => if cur = [] then [] else [String.mk cur.reverse]
  | c :: cs, cur =>
    if isPySpace c then
      (if cur = [] then splitWsAux cs [] else String.mk cur.reverse :: splitWsAux cs [])
    else splitWsAux cs (c :: cur)

/-- Python `str.split()` with no argument: split on whitespace runs, dropping empties. -/
def pySplitWs (s : String) : List String := splitWsAux s.data []

/-- Helper for newline splitting: `cur` is the current line accumulated in reverse. -/
def splitNlAux : List Char → List Char → List String
  | [], cur => [String.mk cur.reverse]
  | c :: cs, cur =>
    if c = '\n' then String.mk cur.reverse :: splitNlAux cs []
    else splitNlAux cs (c :: cur)

/-- Python `content.split(chr(10))`: split at every newline, keeping empty pieces. -/
def pySplitNl (s : String) : List String := splitNlAux s.data []

/-- ASCII lower-casing of one character, as Python `str.lower()` does on ASCII text. -/
def lowerChar (c : Char) : Char :=
  if 'A' ≤ c ∧ c ≤ 'Z' then Char.ofNat (c.toNat + 32) else c

/-- ASCII upper-casing of one character, as Python `str.upper()` does on ASCII text. -/
def upperChar (c : Char) : Char :=
  if 'a' ≤ c ∧ c ≤ 'z' then Char.ofNat (c.toNat - 32) else c

/-- Python `str.lower()`. -/
def pyLower (s : String) : String := String.mk (s.data.map lowerChar)

/-- Python `str.upper()`. -/
def pyUpper (s : String) : String := String.mk (s.data.map upperChar)

/-- Boolean list-prefix test. -/
def listPrefixB : List Char → List Char → Bool
  | [], _ => true
  | _ :: _, [] => false
  | a :: as, b :: bs => a == b && listPrefixB as bs

/-- Boolean contiguous-sublist test. -/
def listInfixB (needle : List Char) : List Char → Bool
  | [] => listPrefixB needle []
  | b :: bs => listPrefixB needle (b :: bs) || listInfixB needle bs

/-- Python substring containment `needle in hay`. -/
def pyIn (needle hay : String) : Bool := listInfixB needle.data hay.data

/-- Python string slice `s[:4]`. -/
def pyTake4 (s : String) : String := String.mk (s.data.take 4)

/-- Python `chr(10).join(parts)` restricted to joining lines. -/
def joinNl (parts : List String) : String := String.intercalate "\n" parts

/- Embedding of `simple_keyword_match` from backend/db/chromadb.py. -/

/-- The query terms the source builds: whitespace-split words of the query longer
than 2 characters, lower-cased. -/
def qualTermsPy (query : String) : List String :=
  ((pySplitWs query).filter (fun t => t.length > 2)).map pyLower

/-- Number of qualifying query terms (with multiplicity) that occur as substrings
of the lower-cased document. -/
def kwMatchCount (query document : String) : Nat :=
  ((qualTermsPy query).filter (fun t => pyIn t (pyLower document))).length

/-- Total number of qualifying query terms, with multiplicity. -/
def kwTermCount (query : String) : Nat := (qualTermsPy query).length

/-- Embedding of `simple_keyword_match` from backend/db/chromadb.py: terms of the
query longer than 2 characters are lowered and checked for substring presence in
the lowered document; the score is matches over total, or 0 with no terms. -/
def simple_keyword_match (query document : String) : ℚ :=
  if qualTermsPy query = [] then 0
  else (kwMatchCount query document : ℚ) / (kwTermCount query : ℚ)

/-- The keyword score exactly as the specification words it: the number of
DISTINCT query terms of length greater than 2 that are present, divided by the
total number of such distinct terms. -/
def keyword_score_spec_distinct (query document : String) : ℚ :=
  let terms := (qualTermsPy query).dedup
  if terms = [] then 0
  else ((terms.filter (fun t => pyIn t (pyLower document))).length : ℚ) / (terms.length : ℚ)

/-- The keyword score as the amended claim words it: query terms of length
greater than 2 are counted WITH multiplicity, each matched case-insensitively
as a substring of the document. -/
def keyword_score_amended (query document : String) : ℚ :=
  let ts := (pySplitWs query).filter (fun t => t.length > 2)
  if ts.length = 0 then 0
  else (ts.countP (fun t => pyIn (pyLower t) (pyLower document)) : ℚ) / (ts.length : ℚ)

/- Embedding of `parse_knowledge_base` from backend/db/chromadb.py. -/

/-- One parsed KB entry: the integer from the marker and the raw text block. -/
structure Chunk where
  kb_id : Nat
  content : String
deriving DecidableEq, Repr

/-- Numeric value of a digit string, as Python `int` on a digit-only string. -/
def digitsToNat (ds : List Char) : Nat := ds.foldl (fun n c => 10 * n + (c.toNat - 48)) 0

/-- Attempt to match the regex `[KB_ID: <digits>]` (with optional whitespace after
the colon) at the head of the character list, returning the captured integer. -/
def matchKbIdAt (cs : List Char) : Option Nat :=
  if listPrefixB "[KB_ID:".data cs then
    let rest2 := (cs.drop 7).dropWhile isPySpace
    let ds := rest2.takeWhile Char.isDigit
    if ds ≠ [] ∧ (rest2.dropWhile Char.isDigit).head? = some ']' then
      some (digitsToNat ds)
    else none
  else none

/-- First match of the marker regex anywhere in a line, as `re.search` finds it. -/
def searchKbId : List Char → Option Nat
  | [] => none
  | c :: cs =>
    match matchKbIdAt (c :: cs) with
    | some n => some n
    | none => searchKbId cs

/-- Python truthiness of `chunk_text.strip()`. -/
def stripNonEmpty (s : String) : Bool := pyStrip s ≠ ""

/-- The loop state of `parse_knowledge_base`: accumulated chunks, the lines of the
chunk currently being collected, and the current `kb_id` (None before the first marker). -/
structure ParseState where
  chunks : List Chunk
  current : List String
  kbId : Option Nat
deriving DecidableEq, Repr

/-- The save step the source performs at each new marker and at end of input:
`if current_chunk and kb_id:` followed by the emptiness check of the stripped
text. Note the Python truthiness test on `kb_id`, under which the integer 0 is
falsy, so an id-0 chunk is silently discarded. -/
def saveCurrentPy (st : ParseState) : List Chunk :=
  match st.kbId with
  | some n =>
    if st.current ≠ [] ∧ n ≠ 0 ∧ stripNonEmpty (joinNl st.current) = true then
      st.chunks ++ [⟨n, joinNl st.current⟩]
    else st.chunks
  | none => st.chunks

/-- One iteration of the line loop of `parse_knowledge_base`. -/
def stepLinePy (st : ParseState) (line : String) : ParseState :=
  match searchKbId line.data with
  | some n => ⟨saveCurrentPy st, [line], some n⟩
  | none => if st.kbId.isSome then ⟨st.chunks, st.current ++ [line], st.kbId⟩ else st

/-- Embedding of `parse_knowledge_base` from backend/db/chromadb.py, applied to the
text read from the KB file: split into lines, fold the line loop, save the final chunk. -/
def parse_knowledge_base (content : String) : List Chunk :=
  saveCurrentPy ((pySplitNl content).foldl stepLinePy ⟨[], [], none⟩)

/-- One step of the specification-worded parse, processing lines from the right:
the accumulator carries the entries found so far and the body lines that follow
the current position up to the next marker. A marker line closes an entry made
of the marker line plus that body, kept unless whitespace-only. -/
def specStep (l : String) (acc : List Chunk × List String) : List Chunk × List String :=
  match searchKbId l.data with
  | some n =>
    let text := joinNl (l :: acc.2)
    ((if stripNonEmpty text then [⟨n, text⟩] else []) ++ acc.1, [])
  | none => (acc.1, l :: acc.2)

/-- KB parsing exactly as the specification words it: an entry starts at each
marker line, runs to the next marker, keeps internal line breaks with the marker
line first, drops whitespace-only entries, and discards lines before the first
marker (they end in the second accumulator component, which is thrown away). -/
def parse_knowledge_base_spec (content : String) : List Chunk :=
  ((pySplitNl content).foldr specStep ([], [])).1

/-- The entry an open parse state would close against a pending body, worded on
the specification side (no truthiness test on the id). -/
def closeEntry (cur : List String) (kbId : Option Nat) (pending : List String) : List Chunk :=
  match kbId with
  | some n =>
    if cur ≠ [] ∧ stripNonEmpty (joinNl (cur ++ pending)) = true then [⟨n, joinNl (cur ++ pending)⟩]
    else []
  | none => []

/- Embedding of `load_and_vectorize_kb` from backend/db/chromadb.py. -/

/-- One record of the Chroma collection: document id, raw content, embedding
(the embedding function is an abstract parameter of the model). -/
structure KBEntry where
  id : String
  content : String
  embedding : Int
deriving DecidableEq, Repr

/-- Result of one ingestion run: the new store contents, whether the
"No chunks found" warning was reported, and whether the run raised. -/
structure IngestOutcome where
  store : List KBEntry
  warned : Bool
  raised : Bool
deriving DecidableEq, Repr

/-- The chunks obtained from the KB source file: an unreadable file is the
`none` case, in which `parse_knowledge_base` reports the failure and returns
the empty list. -/
def parse_kb_source : Option String → List Chunk
  | none => []
  | some c => parse_knowledge_base c

/-- Embedding of `load_and_vectorize_kb` from backend/db/chromadb.py. The source
first clears the existing collection (tolerating a clear failure), then parses
the KB source; if no chunks were found it logs a warning and returns, otherwise
it embeds and batch-inserts all chunks (an insert failure propagates as a raise). -/
def load_and_vectorize_kb (embed : String → Int) (src : Option String)
    (store : List KBEntry) (clearFails insertFails : Bool) : IngestOutcome :=
  let store1 := if clearFails then store else []
  let chunks := parse_kb_source src
  if chunks = [] then ⟨store1, true, false⟩
  else if insertFails then ⟨store1, false, true⟩
  else ⟨store1 ++ chunks.map (fun ch => ⟨"kb_" ++ toString ch.kb_id, ch.content, embed ch.content⟩),
        false, false⟩

/- Embedding of backend/services/kb_service.py. -/

/-- Embedding of `validate_kb_content`: non-empty after stripping, at least 3
non-empty lines, and at least one line containing the entry marker. -/
def validate_kb_content (kb_content : String) : Bool :=
  if pyStrip kb_content = "" then false
  else
    let lines := pySplitNl (pyStrip kb_content)
    if (lines.filter (fun l => pyStrip l ≠ "")).length < 3 then false
    else lines.any (fun l => pyIn "[KB_ID:" l)

/-- Embedding of `update_knowledge_base_file`: validate, then overwrite the KB
file, then re-vectorize; a validation failure returns false before any write,
and a raise out of the re-vectorization is caught and returns false. -/
def update_knowledge_base_file (newContent : String) (kbFile : String)
    (embed : String → Int) (store : List KBEntry) (clearFails insertFails : Bool) :
    Bool × String × List KBEntry :=
  if validate_kb_content newContent = false then (false, kbFile, store)
  else
    let out := load_and_vectorize_kb embed (some newContent) store clearFails insertFails
    if out.raised then (false, newContent, out.store) else (true, newContent, out.store)

/- Embedding of the incident-identifier generation of
backend/services/llm_service.py line 187 and backend/routes/user_routes.py line 34. -/

/-- A wall-clock reading, already broken into calendar fields as the Python
datetime objects carry them. -/
structure PyDateTime where
  year : Nat
  month : Nat
  day : Nat
  hour : Nat
  minute : Nat
  second : Nat
deriving DecidableEq, Repr

/-- Zero-padding to 2 digits, as `%m %d %H %M %S` format. -/
def pad2 (n : Nat) : String := if n < 10 then "0" ++ toString n else toString n

/-- Zero-padding to 4 digits, as `%Y` format. -/
def pad4 (n : Nat) : String :=
  if n < 10 then "000" ++ toString n
  else if n < 100 then "00" ++ toString n
  else if n < 1000 then "0" ++ toString n
  else toString n

/-- Python `strftime` with format `%Y%m%d%H%M%S`. -/
def strftime14 (t : PyDateTime) : String :=
  pad4 t.year ++ pad2 t.month ++ pad2 t.day ++ pad2 t.hour ++ pad2 t.minute ++ pad2 t.second

/-- The two clocks the process can read: `datetime.now()` (server local time,
no timezone) and `datetime.utcnow()` / `datetime.now(pytz.UTC)` (UTC). -/
structure Clock where
  nowLocal : PyDateTime
  nowUtc : PyDateTime
deriving DecidableEq, Repr

/-- Embedding of the id expression
`INC + datetime.now().strftime(14-digit format) + str(uuid.uuid4())[:4].upper()`:
note the source reads the LOCAL clock, not the UTC one. -/
def generate_incident_id (c : Clock) (uuidStr : String) : String :=
  "INC" ++ strftime14 c.nowLocal ++ pyUpper (pyTake4 uuidStr)

/-- The sixteen characters a Python `uuid4` string is built from: the decimal
digits followed by the first six lowercase letters. -/
def hexDigits : List Char :=
  (List.range 10).map (fun n => Char.ofNat (48 + n)) ++
  (List.range 6).map (fun n => Char.ofNat (97 + n))

/-- Uppercase alphanumeric ASCII characters. -/
def isUpperAlnum (c : Char) : Bool := c.isDigit || ('A' ≤ c && c ≤ 'Z')

/- Embedding of the conversation/incident engine of
backend/services/llm_service.py, `handle_user_query` and its helpers. The LLM,
the vector search and the document store are external collaborators; their
behaviour in one turn is an oracle input. -/

/-- One transcript message. -/
structure Message where
  sender : String
  text : String
  timestamp : Nat
deriving DecidableEq, Repr

/-- The cached matched KB entry of a session. -/
structure KBChunkRef where
  kb_id : Nat
  content : String
  similarity : ℚ
deriving DecidableEq, Repr

/-- The per-session state dictionary `_session_data[session_id]`. -/
structure Session where
  conversation : List Message
  kb_searched : Bool
  incident_created : Bool
  incident_id : Option String
  status : String
  kb_chunk : Option KBChunkRef
  current_step : Int
  required_info_gathered : Bool
  all_steps_completed : Bool
  previous_status : String
deriving DecidableEq, Repr

/-- The fresh session dictionary built on first contact. -/
def initSession : Session :=
  ⟨[], false, false, none, "No Incident", none, 0, false, false, "No Incident"⟩

/-- One persisted incident document (the fields the engine reads and writes). -/
structure IncidentDoc where
  incident_id : String
  user_demand : String
  status : String
  kb_reference : String
  additional_info : List Message
deriving DecidableEq, Repr

/-- The incident collection of the document store. -/
abbrev IncidentStore : Type := List IncidentDoc

/-- Embedding of `create_incident` from backend/db/mongodb.py: an insert that can
fail, in which case the error is logged and the store is unchanged. -/
def mongoCreate (store : IncidentStore) (doc : IncidentDoc) (ok : Bool) : IncidentStore :=
  if ok then store ++ [doc] else store

/-- Embedding of `get_incident` from backend/db/mongodb.py: point lookup by id. -/
def mongoFind (store : IncidentStore) (i : String) : Option IncidentDoc :=
  store.find? (fun d => d.incident_id = i)

/-- Embedding of the `update_incident` write: set status and transcript on the
document with the given id. -/
def mongoUpdate (store : IncidentStore) (i : String) (status : String)
    (info : List Message) : IncidentStore :=
  store.map (fun d => if d.incident_id = i then { d with status := status, additional_info := info } else d)

/-- Embedding of `update_incident_in_db` from backend/services/llm_service.py:
look the incident up first and only write when it is found (all failures are
caught and logged). -/
def update_incident_in_db (store : IncidentStore) (i : String)
    (conv : List Message) (status : String) : IncidentStore :=
  match mongoFind store i with
  | some _ => mongoUpdate store i status conv
  | none => store

/-- One row of the `hybrid_search_kb` result list. -/
structure SearchResult where
  kb_id : Nat
  content : String
  similarity : ℚ
deriving DecidableEq, Repr

/-- The external behaviour observed during one turn: whether the main LLM call
raises, the reply text it returns otherwise, the incident-detection verdict
(already defaulted to True by `_llm_detect_it_incident` on its own failure), the
hybrid-search result list (empty on its own failure), the KB-enhanced reply, the
parsed state updates of `_llm_update_session_state` (empty on its failure), the
document-store insert outcome, the freshly generated incident id, and the two
wall-clock readings. -/
structure TurnOracle where
  llmFails : Bool
  responseText : String
  detectIncident : Bool
  searchResults : List SearchResult
  enhancedText : String
  stateUpdates : List (String × String)
  createOk : Bool
  newIncidentId : String
  tUser : Nat
  tAi : Nat
deriving DecidableEq, Repr

/-- Append one message to the session transcript. -/
def appendMsg (s : Session) (sender text : String) (t : Nat) : Session :=
  { s with conversation := s.conversation ++ [⟨sender, text, t⟩] }

/-- Dictionary lookup in the parsed state updates. -/
def lookupUpd (u : List (String × String)) (k : String) : Option String :=
  (u.find? (fun p => p.1 = k)).map Prod.snd

/-- Embedding of the apply section of `_llm_update_session_state`: each present
key overwrites the corresponding session field; the STATUS string is copied
verbatim with no validation, STEP is parsed as an integer (kept unchanged if
unparsable), and the two flags compare the lowered value against "true". -/
def applyStateUpdates (s : Session) (u : List (String × String)) : Session :=
  { s with
    status := (lookupUpd u "STATUS").getD s.status,
    current_step :=
      match lookupUpd u "STEP" with
      | some v => (v.toInt?).getD s.current_step
      | none => s.current_step,
    required_info_gathered :=
      match lookupUpd u "INFO_GATHERED" with
      | some v => pyLower v == "true"
      | none => s.required_info_gathered,
    all_steps_completed :=
      match lookupUpd u "ALL_STEPS_DONE" with
      | some v => pyLower v == "true"
      | none => s.all_steps_completed }

/-- The generic apology of the exception handler of `handle_user_query`. -/
def errorMsg : String := "I encountered an error. Please try again."

/-- What one turn hands back: the returned tuple, the mutated session, the
mutated store, and whether Hybrid Search was invoked during the turn. -/
inductive TurnResult where
  | ok (reply : String) (incidentId : Option String) (status : String) (statusChanged : Bool)
  | errTriple (reply : String) (incidentId : Option String) (status : String)
deriving DecidableEq, Repr

/-- Whether a returned tuple is the 4-component success shape. -/
def TurnResult.isOk4 : TurnResult → Bool
  | .ok _ _ _ _ => true
  | .errTriple _ _ _ => false

/-- The full observable outcome of one turn. -/
structure TurnOut where
  result : TurnResult
  session : Session
  store : IncidentStore
  searchCalled : Bool
deriving Repr

/-- Embedding of the `except` branch of `handle_user_query`: the user message was
already appended before the raise; the handler appends the apology, updates the
incident (if one is associated and present in the store) with status Error, and
returns the 3-tuple `(error_msg, None, Error)`. -/
def errorTurn (query : String) (s0 : Session) (store : IncidentStore) (o : TurnOracle) : TurnOut :=
  let s := appendMsg (appendMsg s0 "User" query o.tUser) "AI" errorMsg o.tAi
  let store1 :=
    match s.incident_id with
    | some i => update_incident_in_db store i s.conversation "Error"
    | none => store
  ⟨.errTriple errorMsg none "Error", s, store1, false⟩

/-- Embedding of the KB-search-and-incident-creation block of `handle_user_query`
(the body of `if should_handle_as_incident and not session[kb_searched]`): run
Hybrid Search, cache the top hit when its similarity exceeds 0.3 and take the
enhanced reply, otherwise mark Pending Admin Review; set `kb_searched`; then
create the incident once, carrying the conversation so far. -/
def searchPhase (query : String) (s : Session) (store : IncidentStore) (o : TurnOracle)
    (responseText : String) : Session × IncidentStore × String :=
  let hit := o.searchResults.head?
  let branch :=
    match hit with
    | some r =>
      if r.similarity > (3 : ℚ)/10 then
        ({ s with kb_chunk := some ⟨r.kb_id, r.content, r.similarity⟩,
                  status := "Pending Information" }, o.enhancedText)
      else ({ s with status := "Pending Admin Review", kb_chunk := none }, responseText)
    | none => ({ s with status := "Pending Admin Review", kb_chunk := none }, responseText)
  let s3 : Session := { branch.1 with kb_searched := true }
  if s3.incident_created then (s3, store, branch.2)
  else
    let s4 : Session := { s3 with incident_id := some o.newIncidentId, incident_created := true }
    let doc : IncidentDoc :=
      ⟨o.newIncidentId, query, s4.status,
       (match s4.kb_chunk with
        | some cinfo => "KB_" ++ toString cinfo.kb_id
        | none => "No KB Match"),
       s4.conversation⟩
    (s4, mongoCreate store doc o.createOk, branch.2)

/-- Embedding of the non-raising body of `handle_user_query`: append the user
message, ask the LLM for a reply, run the search/creation block when the
detector fires on an unsearched session, append the AI message, apply the
LLM-derived state updates, persist the transcript and status when an incident is
associated, and return the 4-tuple. -/
def successTurn (query : String) (s0 : Session) (store : IncidentStore) (o : TurnOracle) : TurnOut :=
  let s1 := appendMsg s0 "User" query o.tUser
  let doSearch := o.detectIncident && !s1.kb_searched
  let afterSearch :=
    if doSearch then searchPhase query s1 store o o.responseText
    else (s1, store, o.responseText)
  let s5 := appendMsg afterSearch.1 "AI" afterSearch.2.2 o.tAi
  let s6 := applyStateUpdates s5 o.stateUpdates
  let store2 :=
    match s6.incident_id with
    | some i => update_incident_in_db afterSearch.2.1 i s6.conversation s6.status
    | none => afterSearch.2.1
  let statusChanged := decide (s6.previous_status ≠ s6.status)
  let s7 : Session := { s6 with previous_status := s6.status }
  ⟨.ok afterSearch.2.2 s6.incident_id s6.status statusChanged, s7, store2, doSearch⟩

/-- Embedding of `handle_user_query` from backend/services/llm_service.py: the
whole turn body sits in one try/except, and the only raising point it contains
is the main LLM invocation (every helper catches its own failures), so the turn
dispatches on that one outcome. -/
def handle_user_query (query : String) (s0 : Session) (store : IncidentStore)
    (o : TurnOracle) : TurnOut :=
  if o.llmFails then errorTurn query s0 store o else successTurn query s0 store o

/-- A whole conversation: sessions thread through `handle_user_query` turn by
turn; `searchCount` counts the Hybrid Search invocations along the way. -/
structure RunOut where
  session : Session
  store : IncidentStore
  searchCount : Nat
deriving Repr

/-- Run a list of turns (query and oracle per turn) through the engine. -/
def runTurns (s : Session) (store : IncidentStore) : List (String × TurnOracle) → RunOut
  | [] => ⟨s, store, 0⟩
  | (q, o) :: rest =>
    let out := handle_user_query q s store o
    let r := runTurns out.session out.store rest
    ⟨r.session, r.store, (if out.searchCalled then 1 else 0) + r.searchCount⟩

/-- The STATUS strings the state-update oracle supplied over a run. -/
def suppliedStatuses (ts : List (String × TurnOracle)) : List String :=
  ts.filterMap (fun p => lookupUpd p.2.stateUpdates "STATUS")

/-- Embedding of `end_session` from backend/routes/user_routes.py: when the
session has an active incident whose stored status is not Resolved, overwrite
its status with the string Closed. -/
def end_session (store : IncidentStore) (active : Option String) : IncidentStore :=
  match active with
  | none => store
  | some i =>
    match mongoFind store i with
    | none => store
    | some doc =>
      if doc.status ≠ "Resolved" then
        store.map (fun d => if d.incident_id = i then { d with status := "Closed" } else d)
      else store

/-- The enumerated status set of the specification. -/
def allowedStatuses : List String :=
  ["No Incident", "Pending Information", "Pending Admin Review", "Open", "In Progress",
   "Resolved", "Error"]

/-- The session-state invariant of the specification, closed under the engine:
an incident implies the KB was searched, a cached KB chunk implies an incident,
and a stored incident id implies an incident. -/
def Inv (s : Session) : Prop :=
  (s.incident_created = true → s.kb_searched = true) ∧
  (s.kb_chunk ≠ none → s.incident_created = true) ∧
  (s.incident_id ≠ none → s.incident_created = true)

instance (s : Session) : Decidable (Inv s) := by
  unfold Inv
  infer_instance

/- Concrete sample data used by the witnesses. -/

/-- A sample successful-turn oracle: the LLM replies, the detector fires, the
top search hit has similarity 2/5 above the 0.3 threshold. -/
def wOracle : TurnOracle :=
  ⟨false, "reply", true, [⟨5, "kbdoc", 2/5⟩], "enhanced", [], true, "INC100", 0, 1⟩

/-- A sample failing-turn oracle: the main LLM call raises. -/
def wOracleFail : TurnOracle := ⟨true, "", true, [], "", [], true, "INC101", 5, 6⟩

/-- A sample session that already searched the KB and carries incident INC1. -/
def wSession : Session := ⟨[], true, true, some "INC1", "Open", none, 0, false, false, "Open"⟩

/-- The stored document of incident INC1. -/
def wDoc : IncidentDoc := ⟨"INC1", "vpn down", "Open", "No KB Match", []⟩

/-- A sample incident store holding exactly INC1. -/
def wStore : IncidentStore := [wDoc]

/- Supporting lemmas shared by the claim theorems. -/

/-- Projection fact: appending a message leaves kb_searched unchanged. -/
theorem am_kb_searched (s : Session) (a b : String) (t : Nat) :
    (appendMsg s a b t).kb_searched = s.kb_searched := rfl

/-- Projection fact: appending a message leaves incident_created unchanged. -/
theorem am_incident_created (s : Session) (a b : String) (t : Nat) :
    (appendMsg s a b t).incident_created = s.incident_created := rfl

/-- Projection fact: appending a message leaves incident_id unchanged. -/
theorem am_incident_id (s : Session) (a b : String) (t : Nat) :
    (appendMsg s a b t).incident_id = s.incident_id := rfl

/-- Projection fact: appending a message leaves kb_chunk unchanged. -/
theorem am_kb_chunk (s : Session) (a b : String) (t : Nat) :
    (appendMsg s a b t).kb_chunk = s.kb_chunk := rfl

/-- Projection fact: appending a message leaves status unchanged. -/
theorem am_status (s : Session) (a b : String) (t : Nat) :
    (appendMsg s a b t).status = s.status := rfl

/-- Projection fact: appending a message leaves previous_status unchanged. -/
theorem am_previous_status (s : Session) (a b : String) (t : Nat) :
    (appendMsg s a b t).previous_status = s.previous_status := rfl

/-- Projection fact: appending a message extends the transcript by one entry. -/
theorem am_conversation (s : Session) (a b : String) (t : Nat) :
    (appendMsg s a b t).conversation = s.conversation ++ [⟨a, b, t⟩] := rfl

/-- Projection fact: the LLM state update leaves kb_searched unchanged. -/
theorem asu_kb_searched (s : Session) (u : List (String × String)) :
    (applyStateUpdates s u).kb_searched = s.kb_searched := rfl

/-- Projection fact: the LLM state update leaves incident_created unchanged. -/
theorem asu_incident_created (s : Session) (u : List (String × String)) :
    (applyStateUpdates s u).incident_created = s.incident_created := rfl

/-- Projection fact: the LLM state update leaves incident_id unchanged. -/
theorem asu_incident_id (s : Session) (u : List (String × String)) :
    (applyStateUpdates s u).incident_id = s.incident_id := rfl

/-- Projection fact: the LLM state update leaves kb_chunk unchanged. -/
theorem asu_kb_chunk (s : Session) (u : List (String × String)) :
    (applyStateUpdates s u).kb_chunk = s.kb_chunk := rfl

/-- Projection fact: the LLM state update leaves the transcript unchanged. -/
theorem asu_conversation (s : Session) (u : List (String × String)) :
    (applyStateUpdates s u).conversation = s.conversation := rfl

/-- Projection fact: the LLM state update leaves previous_status unchanged. -/
theorem asu_previous_status (s : Session) (u : List (String × String)) :
    (applyStateUpdates s u).previous_status = s.previous_status := rfl

/-- Status after the LLM state update: the supplied STATUS string if present,
otherwise the prior status. -/
theorem asu_status (s : Session) (u : List (String × String)) :
    (applyStateUpdates s u).status = (lookupUpd u "STATUS").getD s.status := rfl

/-- Behaviour of the search-and-create block: it always sets kb_searched and
incident_created, never touches the transcript or previous_status, preserves an
existing incident id (creating a fresh one only when none was created yet), and
leaves the status at Pending Information or Pending Admin Review. -/
theorem sp_bundle (q : String) (s : Session) (store : IncidentStore) (o : TurnOracle) (rt : String) :
    ((searchPhase q s store o rt).1.kb_searched = true) ∧
    ((searchPhase q s store o rt).1.incident_created = true) ∧
    ((searchPhase q s store o rt).1.conversation = s.conversation) ∧
    ((searchPhase q s store o rt).1.previous_status = s.previous_status) ∧
    (s.incident_created = true → (searchPhase q s store o rt).1.incident_id = s.incident_id) ∧
    (s.incident_created = false → (searchPhase q s store o rt).1.incident_id = some o.newIncidentId) ∧
    ((searchPhase q s store o rt).1.status = "Pending Information" ∨
     (searchPhase q s store o rt).1.status = "Pending Admin Review") := by
  simp only [searchPhase]
  rcases h : o.searchResults.head? with _ | r
  · dsimp only
    cases hc : s.incident_created <;> simp [hc]
  · dsimp only
    split_ifs with hs hc hc <;> simp_all

/-- Per-turn behaviour bundle of the engine, covering the search flag, the KB
cache, the state invariant and the status evolution. -/
theorem step_bundle (q : String) (s : Session) (store : IncidentStore) (o : TurnOracle) :
    (s.kb_searched = true → (handle_user_query q s store o).searchCalled = false ∧
       (handle_user_query q s store o).session.kb_chunk = s.kb_chunk ∧
       (handle_user_query q s store o).session.kb_searched = true) ∧
    ((handle_user_query q s store o).searchCalled = true →
       (handle_user_query q s store o).session.kb_searched = true) ∧
    ((handle_user_query q s store o).searchCalled = false →
       (handle_user_query q s store o).session.kb_searched = s.kb_searched) ∧
    (Inv s → Inv (handle_user_query q s store o).session) ∧
    (s.incident_created = true → (handle_user_query q s store o).session.incident_created = true) ∧
    (Inv s → ∀ i, s.incident_id = some i →
       (handle_user_query q s store o).session.incident_id = some i) ∧
    ((handle_user_query q s store o).session.status = s.status ∨
     (handle_user_query q s store o).session.status = "Pending Information" ∨
     (handle_user_query q s store o).session.status = "Pending Admin Review" ∨
     lookupUpd o.stateUpdates "STATUS" = some (handle_user_query q s store o).session.status) := by
  cases hf : o.llmFails with
  | true =>
    simp only [handle_user_query, hf, if_true]
    refine ⟨fun h => ⟨rfl, rfl, h⟩, fun h => absurd h (by simp [errorTurn]), fun _ => rfl,
            fun h => h, fun h => h, fun _ i hi => hi, Or.inl rfl⟩
  | false =>
    simp only [handle_user_query, hf, Bool.false_eq_true, if_false, successTurn,
               am_kb_searched, am_incident_created, am_incident_id, am_kb_chunk, am_status,
               am_previous_status]
    by_cases hd : (o.detectIncident && !s.kb_searched) = true
    · rw [if_pos hd]
      have hks : s.kb_searched = false := by
        rcases Bool.and_eq_true_iff.mp hd with ⟨_, h2⟩
        simpa using h2
      obtain ⟨B1, B2, B3, B4, B5, B6, B7⟩ :=
        sp_bundle q (appendMsg s "User" q o.tUser) store o o.responseText
      simp only [TurnOut.searchCalled, TurnOut.session, Session.kb_chunk, Session.kb_searched,
                 Session.incident_created, Session.incident_id, Session.status,
                 asu_kb_searched, asu_incident_created, asu_incident_id, asu_kb_chunk, asu_status,
                 am_kb_searched, am_incident_created, am_incident_id, am_kb_chunk, am_status]
      refine ⟨fun h => by simp [h] at hks, fun _ => B1, fun h => absurd hd (by simp [h]),
              fun _ => ⟨fun _ => B1, fun _ => B2, fun _ => B2⟩, fun _ => B2, ?_, ?_⟩
      · intro hInv i hi
        have hc : s.incident_created = true := hInv.2.2 (by rw [hi]; simp)
        rw [B5 (by rw [am_incident_created]; exact hc)]
        rw [am_incident_id]
        exact hi
      · rcases hlu : lookupUpd o.stateUpdates "STATUS" with _ | v
        · simp only [hlu, Option.getD_none]
          rcases B7 with h7 | h7
          · exact Or.inr (Or.inl h7)
          · exact Or.inr (Or.inr (Or.inl h7))
        · simp only [hlu, Option.getD_some]
          exact Or.inr (Or.inr (Or.inr trivial))
    · rw [if_neg hd]
      simp only [TurnOut.searchCalled, TurnOut.session,
                 asu_kb_searched, asu_incident_created, asu_incident_id, asu_kb_chunk, asu_status,
                 am_kb_searched, am_incident_created, am_incident_id, am_kb_chunk, am_status]
      refine ⟨fun h => ⟨by simpa using hd, by trivial, h⟩, fun h => absurd h (by simpa using hd),
              fun _ => by trivial, fun h => ?_, fun h => h, fun _ i hi => hi, ?_⟩
      · exact ⟨fun hx => h.1 hx, fun hx => h.2.1 hx, fun hx => h.2.2 hx⟩
      · rcases hlu : lookupUpd o.stateUpdates "STATUS" with _ | v
        · simp only [hlu, Option.getD_none]
          exact Or.inl (by trivial)
        · simp only [hlu, Option.getD_some]
          exact Or.inr (Or.inr (Or.inr trivial))

/-- Unfolding of the supplied STATUS strings over a run, one turn at a time. -/
theorem suppliedStatuses_cons (q : String) (o : TurnOracle) (rest : List (String × TurnOracle)) :
    suppliedStatuses ((q, o) :: rest) =
      match lookupUpd o.stateUpdates "STATUS" with
      | some v => v :: suppliedStatuses rest
      | none => suppliedStatuses rest := by
  simp only [suppliedStatuses, List.filterMap_cons]
  cases h : lookupUpd o.stateUpdates "STATUS" <;> simp [h]

/-- Looking an id up after the status-and-transcript write returns the stored
document with those two fields replaced. -/
theorem find_update (store : IncidentStore) (i : String) (st : String) (info : List Message) :
    mongoFind (mongoUpdate store i st info) i =
      (mongoFind store i).map (fun d => { d with status := st, additional_info := info }) := by
  induction store with
  | nil => rfl
  | cons d ds ih =>
    by_cases h : d.incident_id = i
    · have h1 : (if d.incident_id = i then
          ({ d with status := st, additional_info := info } : IncidentDoc) else d) =
          { d with status := st, additional_info := info } := if_pos h
      simp only [mongoFind, mongoUpdate, List.map_cons]
      rw [h1, List.find?_cons_of_pos _ (by simp [h]), List.find?_cons_of_pos _ (by simp [h])]
      simp
    · have h1 : (if d.incident_id = i then
          ({ d with status := st, additional_info := info } : IncidentDoc) else d) = d := if_neg h
      simp only [mongoFind, mongoUpdate, List.map_cons]
      rw [h1, List.find?_cons_of_neg _ (by simp [h]), List.find?_cons_of_neg _ (by simp [h])]
      simpa [mongoFind, mongoUpdate] using ih

/-- Saving the open chunk of a parse state matches the specification-side close
followed by the truthiness filter on the id. -/
theorem saveCurrent_eq (st : ParseState) :
    saveCurrentPy st = st.chunks ++ (closeEntry st.current st.kbId []).filter (fun c => c.kb_id ≠ 0) := by
  unfold saveCurrentPy closeEntry
  cases st.kbId with
  | none => simp
  | some n =>
    simp only [List.append_nil]
    split_ifs with h1 h2 h3 <;> simp_all [List.filter]

/-- Main parsing correspondence: folding the source line loop from any open
state produces the already-saved chunks, then the close of the open entry
against the pending body, then the remaining specification entries, all with
id-0 entries filtered out by the Python truthiness test. -/
theorem parse_fold_spec (ls : List String) : ∀ (st : ParseState),
    (st.kbId.isSome = true → st.current ≠ []) →
    saveCurrentPy (ls.foldl stepLinePy st) =
      st.chunks ++ (closeEntry st.current st.kbId (ls.foldr specStep ([], [])).2
                    ++ (ls.foldr specStep ([], [])).1).filter (fun c => c.kb_id ≠ 0) := by
  induction ls with
  | nil =>
    intro st h
    simp only [List.foldl_nil, List.foldr_nil]
    rw [saveCurrent_eq]
    simp
  | cons l ls ih =>
    intro st h
    simp only [List.foldl_cons, List.foldr_cons]
    cases hm : searchKbId l.data with
    | some n =>
      have hstep : stepLinePy st l = ⟨saveCurrentPy st, [l], some n⟩ := by
        unfold stepLinePy
        rw [hm]
      have hspec : specStep l (ls.foldr specStep ([], [])) =
          ((if stripNonEmpty (joinNl (l :: (ls.foldr specStep ([], [])).2)) then
              [⟨n, joinNl (l :: (ls.foldr specStep ([], [])).2)⟩] else [])
            ++ (ls.foldr specStep ([], [])).1, []) := by
        unfold specStep
        rw [hm]
      rw [hstep, ih _ (by intro _; simp), hspec]
      rw [saveCurrent_eq]
      have hce : closeEntry [l] (some n) (ls.foldr specStep ([], [])).2 =
          (if stripNonEmpty (joinNl (l :: (ls.foldr specStep ([], [])).2)) then
             [⟨n, joinNl (l :: (ls.foldr specStep ([], [])).2)⟩] else []) := by
        unfold closeEntry
        simp
      rw [hce]
      simp [List.filter_append, List.append_assoc]
    | none =>
      have hstep : stepLinePy st l =
          if st.kbId.isSome then ⟨st.chunks, st.current ++ [l], st.kbId⟩ else st := by
        unfold stepLinePy
        rw [hm]
      have hspec : specStep l (ls.foldr specStep ([], [])) =
          ((ls.foldr specStep ([], [])).1, l :: (ls.foldr specStep ([], [])).2) := by
        unfold specStep
        rw [hm]
      rw [hstep, hspec]
      cases hk : st.kbId with
      | none =>
        rw [show (if (none : Option Nat).isSome = true then
              ParseState.mk st.chunks (st.current ++ [l]) none else st) = st from rfl]
        rw [ih st h, hk]
        simp [closeEntry]
      | some k =>
        have hcur : st.current ≠ [] := h (by rw [hk]; rfl)
        rw [show (if (some k).isSome = true then
              ParseState.mk st.chunks (st.current ++ [l]) (some k) else st) =
            ParseState.mk st.chunks (st.current ++ [l]) (some k) from rfl]
        rw [ih ⟨st.chunks, st.current ++ [l], some k⟩ (by intro _; simp)]
        have hce2 : closeEntry (st.current ++ [l]) (some k) (ls.foldr specStep ([], [])).2 =
            closeEntry st.current (some k) (l :: (ls.foldr specStep ([], [])).2) := by
          unfold closeEntry
          simp [List.append_assoc, hcur]
        simp only [hce2]

/-- Upper-casing any uuid character yields an uppercase alphanumeric character. -/
theorem hexUpper : ∀ c0 ∈ hexDigits, isUpperAlnum (upperChar c0) = true := by decide

/- Claim theorems. -/

/-- C1 counterexample: the claim that an empty ingestion leaves the KB Store
unchanged is false. On a store holding one entry, ingesting the empty source
deletes that entry: the code clears the collection BEFORE parsing, so the
empty-chunk early return happens after the wipe and the store ends empty. -/
theorem c1_counterexample :
    load_and_vectorize_kb (fun _ => 0) (some "") [⟨"kb_1", "doc", 0⟩] false false =
      ⟨[], true, false⟩ ∧
    ([] : List KBEntry) ≠ [⟨"kb_1", "doc", 0⟩] := by
  constructor
  · rfl
  · decide

/-- C1 as amended: running ingestion on a source whose retained-entry list is
empty reports the warning and inserts nothing, but the KB Store has already
been cleared, so it ends empty (prior contents are preserved only if the clear
itself failed), and the run does not raise. -/
theorem c1_empty_ingestion (embed : String → Int) (src : Option String) (store : List KBEntry)
    (clearFails insertFails : Bool) (h : parse_kb_source src = []) :
    load_and_vectorize_kb embed src store clearFails insertFails =
      ⟨if clearFails then store else [], true, false⟩ := by
  unfold load_and_vectorize_kb
  rw [h]
  simp

/-- C1 witness: the amended theorem applied to the empty source over a
populated store. -/
theorem c1_witness :
    parse_kb_source (some "") = [] ∧
    load_and_vectorize_kb (fun _ => 1) (some "") [⟨"kb_7", "x", 1⟩] false true =
      ⟨[], true, false⟩ :=
  ⟨by decide, c1_empty_ingestion _ _ _ _ _ (by decide)⟩

/-- C2 counterexample: the keyword score of the code differs from the
distinct-terms formula of the claim. On query "vpn vpn abc" against a document
containing "vpn", the code counts the duplicate term twice and scores 2/3,
while the distinct formula scores 1/2. -/
theorem c2_counterexample :
    simple_keyword_match "vpn vpn abc" "vpn" ≠ keyword_score_spec_distinct "vpn vpn abc" "vpn" := by
  have e1 : simple_keyword_match "vpn vpn abc" "vpn" = (2:ℚ)/3 := by
    unfold simple_keyword_match
    rw [if_neg (by decide : ¬ qualTermsPy "vpn vpn abc" = []),
        show kwMatchCount "vpn vpn abc" "vpn" = 2 from by decide,
        show kwTermCount "vpn vpn abc" = 3 from by decide]
    norm_num
  have e2 : keyword_score_spec_distinct "vpn vpn abc" "vpn" = (1:ℚ)/2 := by
    simp only [keyword_score_spec_distinct]
    rw [show (qualTermsPy "vpn vpn abc").dedup = ["vpn", "abc"] from by decide]
    rw [show (["vpn", "abc"].filter (fun t => pyIn t (pyLower "vpn"))) = ["vpn"] from by decide,
        if_neg (by decide : ¬ (["vpn", "abc"] : List String) = [])]
    norm_num
  rw [e1, e2]
  norm_num

/-- C2 as amended: the keyword score equals the number of query terms of length
greater than 2, counted WITH multiplicity, whose lowered form occurs as a
substring of the lowered document, divided by the total number of such terms;
it is 0 when the query has no qualifying term; and the claim example still
holds: query "vpn not connecting" against a document containing "vpn" and
"connecting" but not "not" scores 2/3. -/
theorem c2_keyword_score :
    (∀ q d, simple_keyword_match q d = keyword_score_amended q d) ∧
    (∀ q d, qualTermsPy q = [] → simple_keyword_match q d = 0) ∧
    simple_keyword_match "vpn not connecting" "vpn is connecting now" = 2/3 := by
  refine ⟨?_, ?_, ?_⟩
  · intro q d
    unfold simple_keyword_match keyword_score_amended kwMatchCount kwTermCount qualTermsPy
    simp only [List.length_map, List.map_eq_nil_iff]
    rw [List.countP_eq_length_filter, List.filter_map, List.length_map]
    by_cases h : (pySplitWs q).filter (fun t => t.length > 2) = []
    · simp [h]
    · rw [if_neg h, if_neg (by simpa using (List.length_eq_zero.not.mpr h))]
      rfl
  · intro q d h
    unfold simple_keyword_match
    rw [if_pos h]
  · unfold simple_keyword_match
    rw [if_neg (by decide : ¬ qualTermsPy "vpn not connecting" = []),
        show kwMatchCount "vpn not connecting" "vpn is connecting now" = 2 from by decide,
        show kwTermCount "vpn not connecting" = 3 from by decide]
    norm_num

/-- C2 witness: the zero-score branch at a query with no qualifying term. -/
theorem c2_witness :
    qualTermsPy "hi" = [] ∧ simple_keyword_match "hi" "anything" = 0 :=
  ⟨by decide, c2_keyword_score.2.1 "hi" "anything" (by decide)⟩

/-- C3 counterexample: the parser drops a non-whitespace entry whose marker id
is 0, which the claim does not allow (the claim permits dropping only
whitespace-only entries). The truthiness test on the id in the save step treats
0 as false. -/
theorem c3_counterexample :
    parse_knowledge_base "[KB_ID: 0]\nA" = [] ∧
    parse_knowledge_base_spec "[KB_ID: 0]\nA" = [⟨0, "[KB_ID: 0]\nA"⟩] ∧
    ([] : List Chunk) ≠ [⟨0, "[KB_ID: 0]\nA"⟩] :=
  ⟨by decide, by decide, by decide⟩

/-- C3 as amended: on every input, the parser produces exactly the entries of
the specification-worded parse (lines before the first marker discarded, each
entry starting at its marker line and preserving internal line breaks up to the
next marker, whitespace-only entries dropped) EXCEPT that entries whose marker
id is 0 are additionally dropped; and the claim example holds as stated. -/
theorem c3_parse_boundaries :
    (∀ content, parse_knowledge_base content =
      (parse_knowledge_base_spec content).filter (fun c => c.kb_id ≠ 0)) ∧
    parse_knowledge_base "[KB_ID: 1]\nA\n[KB_ID: 2]\nB\nC" =
      [⟨1, "[KB_ID: 1]\nA"⟩, ⟨2, "[KB_ID: 2]\nB\nC"⟩] := by
  constructor
  · intro content
    unfold parse_knowledge_base parse_knowledge_base_spec
    rw [parse_fold_spec _ _ (by intro hx; simp at hx)]
    simp [closeEntry]
  · decide

/-- C4: once a session has kb_searched set, no later turn invokes Hybrid Search
again and the cached kb_chunk is never replaced; in general any run performs at
most one search (at most zero once the flag is set). -/
theorem c4_at_most_once_search (s : Session) (store : IncidentStore)
    (ts : List (String × TurnOracle)) :
    (runTurns s store ts).searchCount ≤ (if s.kb_searched = true then 0 else 1) ∧
    (s.kb_searched = true → (runTurns s store ts).searchCount = 0 ∧
       (runTurns s store ts).session.kb_chunk = s.kb_chunk ∧
       (runTurns s store ts).session.kb_searched = true) := by
  induction ts generalizing s store with
  | nil =>
    refine ⟨by simp [runTurns], fun h => ⟨by simp [runTurns], rfl, h⟩⟩
  | cons t rest ih =>
    obtain ⟨q, o⟩ := t
    obtain ⟨S1, S2, S3, _, _, _, _⟩ := step_bundle q s store o
    simp only [runTurns]
    by_cases hks : s.kb_searched = true
    · obtain ⟨e1, e2, e3⟩ := S1 hks
      obtain ⟨ihA, ihB⟩ := ih (handle_user_query q s store o).session (handle_user_query q s store o).store
      obtain ⟨f1, f2, f3⟩ := ihB e3
      rw [e1, hks]
      refine ⟨?_, fun _ => ⟨?_, ?_, f3⟩⟩
      · simp [f1]
      · simp [f1]
      · rw [f2, e2]
    · have hksf : s.kb_searched = false := by simpa using hks
      rw [if_neg hks]
      obtain ⟨ihA, ihB⟩ := ih (handle_user_query q s store o).session (handle_user_query q s store o).store
      refine ⟨?_, fun h => absurd h hks⟩
      cases hsc : (handle_user_query q s store o).searchCalled with
      | true =>
        obtain ⟨f1, _, _⟩ := ihB (S2 hsc)
        simp [hsc, f1]
      | false =>
        have hk2 : (handle_user_query q s store o).session.kb_searched = false := by
          rw [S3 hsc, hksf]
        have := ihA
        rw [hk2] at this
        simp only [Bool.false_eq_true, if_false] at this
        simpa using this

/-- C4 witness: a turn on a session with the flag already set performs no
search and keeps the cached chunk. -/
theorem c4_witness :
    (runTurns wSession wStore [("q", wOracle)]).searchCount = 0 ∧
    (runTurns wSession wStore [("q", wOracle)]).session.kb_chunk = wSession.kb_chunk ∧
    (runTurns wSession wStore [("q", wOracle)]).session.kb_searched = true :=
  (c4_at_most_once_search wSession wStore [("q", wOracle)]).2 rfl

/-- C5: across any sequence of turns, the session invariant is preserved
(incident_created implies kb_searched, a cached kb_chunk implies
incident_created, a stored incident id implies incident_created), the
kb_searched and incident_created flags never revert to false, and the incident
id, once some value, never changes, so at most one incident is ever associated
with the session. -/
theorem c5_session_invariants (s : Session) (store : IncidentStore)
    (ts : List (String × TurnOracle)) (h : Inv s) :
    Inv (runTurns s store ts).session ∧
    (s.kb_searched = true → (runTurns s store ts).session.kb_searched = true) ∧
    (s.incident_created = true → (runTurns s store ts).session.incident_created = true) ∧
    (∀ i, s.incident_id = some i → (runTurns s store ts).session.incident_id = some i) := by
  induction ts generalizing s store with
  | nil => exact ⟨h, fun hx => hx, fun hx => hx, fun i hi => hi⟩
  | cons t rest ih =>
    obtain ⟨q, o⟩ := t
    obtain ⟨S1, S2, S3, S4, S5, S6, _⟩ := step_bundle q s store o
    have hInv2 := S4 h
    obtain ⟨I1, I2, I3, I4⟩ := ih (handle_user_query q s store o).session
      (handle_user_query q s store o).store hInv2
    simp only [runTurns]
    refine ⟨I1, ?_, ?_, ?_⟩
    · intro hks
      exact I2 (S1 hks).2.2
    · intro hc
      exact I3 (S5 hc)
    · intro i hi
      exact I4 i (S6 h i hi)

/-- C5 witness: a session carrying incident INC1 keeps exactly that id through
a further turn; the invariant hypothesis is discharged by evaluation. -/
theorem c5_witness :
    (runTurns wSession wStore [("q", wOracle)]).session.incident_id = some "INC1" :=
  (c5_session_invariants wSession wStore [("q", wOracle)] (by decide)).2.2.2 "INC1" rfl

/-- C6 counterexample: end_session writes the status string Closed, which lies
outside the enumerated status set of the claim, onto any non-Resolved incident. -/
theorem c6_counterexample :
    (end_session [⟨"INC1", "q", "Pending Information", "No KB Match", []⟩] (some "INC1")).map
        (fun d => d.status) = ["Closed"] ∧
    "Closed" ∉ allowedStatuses := by
  constructor
  · rfl
  · decide

/-- C6 as amended: the engine itself only ever moves the session status to
Pending Information or Pending Admin Review; every other session status value
is copied verbatim from an LLM-supplied STATUS string with no validation
(and end_session separately writes Closed on the stored incident), so the
status is confined to the enumerated set only if the LLM supplies strings from
that set. -/
theorem c6_status_values (s : Session) (store : IncidentStore)
    (ts : List (String × TurnOracle)) :
    (runTurns s store ts).session.status = s.status ∨
    (runTurns s store ts).session.status ∈
      (["Pending Information", "Pending Admin Review"] : List String) ∨
    (runTurns s store ts).session.status ∈ suppliedStatuses ts := by
  induction ts generalizing s store with
  | nil => exact Or.inl rfl
  | cons t rest ih =>
    obtain ⟨q, o⟩ := t
    obtain ⟨_, _, _, _, _, _, S7⟩ := step_bundle q s store o
    simp only [runTurns]
    rcases ih (handle_user_query q s store o).session (handle_user_query q s store o).store
      with hfin | hfin | hfin
    · rcases S7 with s7 | s7 | s7 | s7
      · exact Or.inl (hfin.trans s7)
      · exact Or.inr (Or.inl (by rw [hfin, s7]; simp))
      · exact Or.inr (Or.inl (by rw [hfin, s7]; simp))
      · refine Or.inr (Or.inr ?_)
        rw [suppliedStatuses_cons, s7, hfin]
        simp
    · exact Or.inr (Or.inl hfin)
    · refine Or.inr (Or.inr ?_)
      rw [suppliedStatuses_cons]
      rcases hlu : lookupUpd o.stateUpdates "STATUS" with _ | v
      · simpa using hfin
      · simp only []
        exact List.mem_cons_of_mem v hfin

/-- C7: when the main LLM call raises, the engine returns the generic apology
3-tuple instead of propagating, the apology is non-empty, and an incident
associated with the session and present in the store is rewritten with status
Error and the transcript extended by the user message and the apology. -/
theorem c7_failure_fallback (q : String) (s : Session) (store : IncidentStore) (o : TurnOracle)
    (hf : o.llmFails = true) :
    (handle_user_query q s store o).result = .errTriple errorMsg none "Error" ∧
    errorMsg ≠ "" ∧
    (∀ i doc, s.incident_id = some i → mongoFind store i = some doc →
       mongoFind (handle_user_query q s store o).store i =
         some
           { doc with
             status := "Error",
             additional_info :=
               s.conversation ++ [⟨"User", q, o.tUser⟩, ⟨"AI", errorMsg, o.tAi⟩] }) := by
  simp only [handle_user_query, hf, if_true, errorTurn]
  refine ⟨by trivial, by decide, ?_⟩
  intro i doc hi hd
  rw [show (appendMsg (appendMsg s "User" q o.tUser) "AI" errorMsg o.tAi).incident_id
        = s.incident_id from rfl, hi]
  simp only []
  unfold update_incident_in_db
  rw [hd, find_update, hd]
  simp [am_conversation, List.append_assoc]

/-- C7 witness: a failing turn on the sample session and store. -/
theorem c7_witness :
    (handle_user_query "q" wSession wStore wOracleFail).result =
      .errTriple errorMsg none "Error" ∧
    mongoFind (handle_user_query "q" wSession wStore wOracleFail).store "INC1" =
      some
        { wDoc with
          status := "Error",
          additional_info := wSession.conversation ++ [⟨"User", "q", 5⟩, ⟨"AI", errorMsg, 6⟩] } :=
  ⟨(c7_failure_fallback "q" wSession wStore wOracleFail rfl).1,
   (c7_failure_fallback "q" wSession wStore wOracleFail rfl).2.2 "INC1" wDoc rfl rfl⟩

/-- C8 counterexample: the 14 characters after the INC prefix of a generated
incident id are the LOCAL-clock timestamp, not the UTC one: with a local clock
one hour ahead of UTC, the embedded timestamp differs from the UTC formatting,
so the claimed shape INC + UTC timestamp + suffix is false. -/
theorem c8_counterexample :
    ((generate_incident_id ⟨⟨2025,1,1,12,0,0⟩, ⟨2025,1,1,11,0,0⟩⟩ "abcd-1111").data.drop 3).take 14 ≠
      (strftime14 ⟨2025,1,1,11,0,0⟩).data := by decide

/-- C8 as amended: every generated incident id is the literal INC prefix,
followed by the current LOCAL server time (datetime.now with no timezone)
formatted as 14 digits, followed by the first 4 characters of the random uuid
string upper-cased; since uuid characters are hex digits, those 4 characters
are uppercase alphanumeric. -/
theorem c8_incident_id_format (c : Clock) (u : String)
    (h : ∀ ch ∈ u.data.take 4, ch ∈ hexDigits) :
    generate_incident_id c u = "INC" ++ strftime14 c.nowLocal ++ pyUpper (pyTake4 u) ∧
    ∀ ch ∈ (pyUpper (pyTake4 u)).data, isUpperAlnum ch = true := by
  refine ⟨rfl, ?_⟩
  intro ch hch
  have hd : (pyUpper (pyTake4 u)).data = (u.data.take 4).map upperChar := rfl
  rw [hd] at hch
  rcases List.mem_map.mp hch with ⟨c0, hc0, rfl⟩
  exact hexUpper c0 (h c0 hc0)

/-- C8 witness: the amended format at a concrete clock and uuid string. -/
theorem c8_witness :
    generate_incident_id ⟨⟨2025,10,12,8,30,0⟩, ⟨2025,10,12,8,30,0⟩⟩ "9f3a-1b2c" =
      "INC" ++ strftime14 ⟨2025,10,12,8,30,0⟩ ++ pyUpper (pyTake4 "9f3a-1b2c") ∧
    isUpperAlnum 'F' = true :=
  ⟨(c8_incident_id_format ⟨⟨2025,10,12,8,30,0⟩, ⟨2025,10,12,8,30,0⟩⟩ "9f3a-1b2c" (by decide)).1,
   (c8_incident_id_format ⟨⟨2025,10,12,8,30,0⟩, ⟨2025,10,12,8,30,0⟩⟩ "9f3a-1b2c" (by decide)).2
     'F' (by decide)⟩

/-- C9: validation failure is exactly one of the three claimed shapes (empty
after stripping, fewer than 3 non-empty lines, or no line containing the entry
marker), and on a failing content the KB update returns false with the KB file
and the KB Store both untouched: the file is only overwritten after validation
passes. -/
theorem c9_validation_guard (c kbFile : String) (embed : String → Int) (store : List KBEntry)
    (clearFails insertFails : Bool) :
    (validate_kb_content c = false ↔
      (pyStrip c = "" ∨
       ((pySplitNl (pyStrip c)).filter (fun l => pyStrip l ≠ "")).length < 3 ∨
       ∀ l ∈ pySplitNl (pyStrip c), pyIn "[KB_ID:" l = false)) ∧
    (validate_kb_content c = false →
      update_knowledge_base_file c kbFile embed store clearFails insertFails =
        (false, kbFile, store)) := by
  constructor
  · unfold validate_kb_content
    by_cases h1 : pyStrip c = ""
    · simp [h1]
    · rw [if_neg h1]
      by_cases h2 : ((pySplitNl (pyStrip c)).filter (fun l => pyStrip l ≠ "")).length < 3
      · rw [if_pos h2]
        exact ⟨fun _ => Or.inr (Or.inl h2), fun _ => rfl⟩
      · rw [if_neg h2, List.any_eq_false]
        constructor
        · intro h
          exact Or.inr (Or.inr (fun l hl => by simpa using h l hl))
        · rintro (h | h | h)
          · exact absurd h h1
          · exact absurd h h2
          · intro l hl
            simp [h l hl]
  · intro h
    unfold update_knowledge_base_file
    rw [h]
    simp

/-- C9 witness: the empty replacement content is rejected with no change to
file or store. -/
theorem c9_witness :
    update_knowledge_base_file "" "oldfile" (fun _ => 0) [] false false = (false, "oldfile", []) :=
  (c9_validation_guard "" "oldfile" (fun _ => 0) [] false false).2 (by decide)

/-- C10: on a failing turn the engine returns the 3-component tuple with a
None incident id and status Error, regardless of whether the session carries an
incident, so the caller cannot recover the id from the return value; on a
successful turn it returns the 4-component tuple. -/
theorem c10_failure_tuple (q : String) (s : Session) (store : IncidentStore) (o : TurnOracle) :
    (o.llmFails = true →
      (handle_user_query q s store o).result = .errTriple errorMsg none "Error") ∧
    (o.llmFails = false → ((handle_user_query q s store o).result).isOk4 = true) := by
  constructor <;> intro h <;>
    simp [handle_user_query, h, errorTurn, successTurn, TurnResult.isOk4]

/-- C10 witness: the failing shape on a session that does carry incident INC1,
and the successful shape on a fresh session. -/
theorem c10_witness :
    (handle_user_query "q" wSession wStore wOracleFail).result =
      .errTriple errorMsg none "Error" ∧
    ((handle_user_query "q" initSession [] wOracle).result).isOk4 = true :=
  ⟨(c10_failure_tuple "q" wSession wStore wOracleFail).1 rfl,
   (c10_failure_tuple "q" initSession [] wOracle).2 rfl⟩

end GenaiIncident
